import Mathlib

/-
Shallow embedding of the EvoAI customer-assistant pipeline
(`src/tools.py` and `src/graph_langgraph.py`) in its deterministic mode.

Strings are modelled as Lean `String`s; text scanning mirrors the Python
regular expressions by explicit character-list scans.  Timestamps are
modelled as integer POSIX seconds (the ISO shape the program feeds its
parser has no fractional seconds); the elapsed minutes of the cancellation
rule are an exact rational, modelling the source's float division (the
rule's 1e-9 epsilon dwarfs any double rounding at the magnitudes involved).
Fallible steps (ISO-timestamp parsing, which raises `ValueError` in Python)
are modelled with `Except String`.  The delegated (LLM) mode is an external
service and is out of scope: every node below embeds the deterministic
branch of the source.
-/

set_option maxRecDepth 65536

namespace Evo

/-- Python `str.lower` restricted to the ASCII range, which is the only range
the keyword matching of this program exercises. -/
def lowerStr (s : String) : String := String.mk (s.toList.map Char.toLower)

/-- Python substring containment `needle in haystack`. -/
def containsSub (haystack needle : String) : Bool :=
  decide (needle.toList <:+: haystack.toList)

/-- Character class `[a-z0-9]` (the query tokenizer runs on lowered text). -/
def isLowerAlnum (c : Char) : Bool :=
  c.isDigit || (97 ≤ c.toNat && c.toNat ≤ 122)

/-- Regex `\s` on the ASCII range (Python whitespace). -/
def isPySpace (c : Char) : Bool :=
  c = ' ' || c = '\t' || c = '\n' || c = '\r' || c.toNat = 11 || c.toNat = 12

/-- Regex `\w` on the ASCII range: letters, digits and underscore. -/
def isWordChar (c : Char) : Bool := c.isAlphanum || c = '_'

/-- Splits a character list into the maximal runs of `[a-z0-9]` characters,
modelling `re.findall(r"[a-z0-9]+", q)`. -/
def tokenizeAux : List Char → List Char → List (List Char)
  | [], acc => match acc with | [] => [] | _ => [acc.reverse]
  | c :: rest, acc =>
    if isLowerAlnum c then tokenizeAux rest (c :: acc)
    else match acc with
      | [] => tokenizeAux rest []
      | _ => acc.reverse :: tokenizeAux rest []

/-- All `[a-z0-9]+` tokens of a string, in order. -/
def findallAlnum (s : String) : List String :=
  (tokenizeAux s.toList []).map String.mk

/-- Numeric value of a digit run, as Python `int` of the captured group. -/
def natOfDigits (ds : List Char) : Nat :=
  ds.foldl (fun n c => 10 * n + (c.toNat - 48)) 0

/-- Match of `under\s*\$?\s*(\d+)` anchored at the head of `l`; the character
classes of the pattern are pairwise disjoint, so the greedy scan needs no
backtracking. -/
def matchUnderAt (l : List Char) : Option Nat :=
  if "under".toList.isPrefixOf l then
    let r1 := (l.drop 5).dropWhile isPySpace
    let r2 := match r1 with | '$' :: t => t | _ => r1
    let r3 := r2.dropWhile isPySpace
    match r3.takeWhile Char.isDigit with
    | [] => none
    | ds => some (natOfDigits ds)
  else none

/-- Leftmost match of `under\s*\$?\s*(\d+)`, as `re.search`. -/
def searchUnder : List Char → Option Nat
  | [] => none
  | c :: rest =>
    match matchUnderAt (c :: rest) with
    | some n => some n
    | none => searchUnder rest

/-- Price-ceiling extraction of the Tool Selector:
`re.search(r"under\s*\$?\s*(\d+)", prompt.lower())`, captured group as a number. -/
def extract_price_cap (prompt : String) : Option ℚ :=
  (searchUnder (lowerStr prompt).toList).map (fun n => (n : ℚ))

/-- Tag extraction of the Tool Selector: "wedding" and "midi" by substring
containment in the lowered prompt, in that order. -/
def extract_tags (prompt : String) : List String :=
  (if containsSub (lowerStr prompt) "wedding" then ["wedding"] else []) ++
  (if containsSub (lowerStr prompt) "midi" then ["midi"] else [])

/-- Match of `\b\d{5,6}\b` at a position whose predecessor is `prev`:
a word boundary before, a maximal digit run of length 5 or 6, and a word
boundary after (a longer run makes the trailing `\b` fail for both of the
quantifier's choices, and no start inside a run has a leading boundary). -/
def matchZipAt (prev : Option Char) (l : List Char) : Option (List Char) :=
  if (match prev with | some c => isWordChar c | none => false) then none
  else
    let run := l.takeWhile Char.isDigit
    let n := run.length
    if n = 5 || n = 6 then
      match l.drop n with
      | [] => some run
      | c :: _ => if isWordChar c then none else some run
    else none

/-- Leftmost match of `(\b\d{5,6}\b)`, as `re.search`. -/
def searchZipAux : Option Char → List Char → Option (List Char)
  | _, [] => none
  | prev, c :: rest =>
    match matchZipAt prev (c :: rest) with
    | some r => some r
    | none => searchZipAux (some c) rest

/-- Postal-code extraction of the Tool Selector: first 5-or-6-digit
word-bounded token of the prompt. -/
def extract_zip (prompt : String) : Option String :=
  (searchZipAux none prompt.toList).map String.mk

/-- Capture `[A-Za-z]\d{4,}` anchored at the head of `l`: a letter followed by
a maximal digit run of length at least four. -/
def matchOidCore : List Char → Option (List Char)
  | [] => none
  | c :: rest =>
    if c.isAlpha then
      let ds := rest.takeWhile Char.isDigit
      if 4 ≤ ds.length then some (c :: ds) else none
    else none

/-- Match of `(?:order\s*)?([A-Za-z]\d{4,})` anchored at the head of `l`; the
greedy optional prefix is tried first, as Python backtracking does. -/
def matchOidAt (l : List Char) : Option (List Char) :=
  match (if "order".toList.isPrefixOf l then
           matchOidCore ((l.drop 5).dropWhile isPySpace)
         else none) with
  | some r => some r
  | none => matchOidCore l

/-- Leftmost match of the order-id pattern, as `re.search`. -/
def searchOid : List Char → Option (List Char)
  | [] => none
  | c :: rest =>
    match matchOidAt (c :: rest) with
    | some r => some r
    | none => searchOid rest

/-- Order-id extraction of the Tool Selector (captured group of
`(?:order\s*)?([A-Za-z]\d{4,})`). -/
def extract_order_id (prompt : String) : Option String :=
  (searchOid prompt.toList).map String.mk

/-- Character class `[A-Za-z0-9._%+-]` (email local part). -/
def isLocalChar (c : Char) : Bool :=
  c.isAlphanum || c = '.' || c = '_' || c = '%' || c = '+' || c = '-'

/-- Character class `[A-Za-z0-9.-]` (email domain part). -/
def isDomainChar (c : Char) : Bool :=
  c.isAlphanum || c = '.' || c = '-'

/-- Positions of `.` inside the maximal domain run, largest first: the order in
which the backtracking engine shrinks the greedy `[A-Za-z0-9.-]+`. -/
def dotSplits (run : List Char) : List Nat :=
  ((List.range run.length).filter (fun k => run.get? k = some '.')).reverse

/-- Split of the domain run as `[A-Za-z0-9.-]+\.[A-Za-z]{2,}`: the largest dot
position followed by at least two letters wins. -/
def tryDomain (run : List Char) : Option (List Char) :=
  (dotSplits run).findSome? (fun k =>
    let letters := (run.drop (k + 1)).takeWhile Char.isAlpha
    if 2 ≤ letters.length then some (run.take k ++ '.' :: letters) else none)

/-- Match of the email pattern
`([A-Za-z0-9._%+-]+@[A-Za-z0-9.-]+\.[A-Za-z]{2,})` anchored at the head. -/
def matchEmailAt (l : List Char) : Option (List Char) :=
  match l.takeWhile isLocalChar with
  | [] => none
  | locPart =>
    match l.drop locPart.length with
    | '@' :: rest =>
      (tryDomain (rest.takeWhile isDomainChar)).map (fun d => locPart ++ '@' :: d)
    | _ => none

/-- Leftmost match of the email pattern, as `re.search`. -/
def searchEmail : List Char → Option (List Char)
  | [] => none
  | c :: rest =>
    match matchEmailAt (c :: rest) with
    | some r => some r
    | none => searchEmail rest

/-- Email extraction of the Tool Selector. -/
def extract_email (prompt : String) : Option String :=
  (searchEmail prompt.toList).map String.mk

/-- Days since the Unix epoch of a proleptic-Gregorian civil date
(the standard era-based civil-calendar formula; `Int` division truncates,
as the formula requires). -/
def daysFromCivil (y : Int) (m d : Nat) : Int :=
  let y' : Int := if m ≤ 2 then y - 1 else y
  let era : Int := (if 0 ≤ y' then y' else y' - 399) / 400
  let yoe : Int := y' - era * 400
  let mp : Int := ((m : Int) + 9) % 12
  let doy : Int := (153 * mp + 2) / 5 + (d : Int) - 1
  let doe : Int := yoe * 365 + yoe / 4 - yoe / 100 + doy
  era * 146097 + doe - 719468

/-- Gregorian leap-year test. -/
def isLeapYear (y : Int) : Bool :=
  (y % 4 = 0 && y % 100 ≠ 0) || y % 400 = 0

/-- Number of days of a month, for validating a parsed date. -/
def daysInMonth (y : Int) (m : Nat) : Nat :=
  if m = 2 then (if isLeapYear y then 29 else 28)
  else if m = 4 || m = 6 || m = 9 || m = 11 then 30
  else 31

/-- Reads exactly `n` ASCII digits, returning their value and the rest. -/
def readDigitsN : Nat → List Char → Nat → Option (Nat × List Char)
  | 0, l, acc => some (acc, l)
  | Nat.succ k, c :: rest, acc =>
    if c.isDigit then readDigitsN k rest (acc * 10 + (c.toNat - 48)) else none
  | Nat.succ _, [], _ => none

/-- Consumes one expected character. -/
def expectChar (c : Char) : List Char → Option (List Char)
  | d :: rest => if d = c then some rest else none
  | [] => none

/-- Reads a UTC offset `±HH:MM` ending the string, in seconds. -/
def parseOffsetHM (sign : Int) (l : List Char) : Option Int := do
  let (h, l1) ← readDigitsN 2 l 0
  let l2 ← expectChar ':' l1
  let (m, l3) ← readDigitsN 2 l2 0
  if l3 = [] ∧ h ≤ 23 ∧ m ≤ 59 then
    some (sign * ((h : Int) * 3600 + (m : Int) * 60))
  else none

/-- Reads the optional trailing UTC offset; an absent offset (a naive
timestamp) is taken as UTC, which is how every timestamp of this program is
used. -/
def parseOffset : List Char → Option Int
  | [] => some 0
  | '+' :: r => parseOffsetHM 1 r
  | '-' :: r => parseOffsetHM (-1) r
  | _ => none

/-- Python `datetime.fromisoformat` on the shape this program feeds it:
`YYYY-MM-DD` + (`T` or space) + `HH:MM:SS` + optional `±HH:MM`, with the
calendar and clock fields range-checked.  The result is the POSIX timestamp in
whole seconds (the grammar carries no fractional seconds).  Any other string
is rejected (`none`), modelling the `ValueError` the Python call raises. -/
def fromisoformat (l : List Char) : Option Int := do
  let (y, l1) ← readDigitsN 4 l 0
  let l2 ← expectChar '-' l1
  let (mo, l3) ← readDigitsN 2 l2 0
  let l4 ← expectChar '-' l3
  let (d, l5) ← readDigitsN 2 l4 0
  let l6 ← match l5 with
    | 'T' :: r => some r
    | ' ' :: r => some r
    | _ => none
  let (h, l7) ← readDigitsN 2 l6 0
  let l8 ← expectChar ':' l7
  let (mi, l9) ← readDigitsN 2 l8 0
  let l10 ← expectChar ':' l9
  let (s, l11) ← readDigitsN 2 l10 0
  let off ← parseOffset l11
  if 1 ≤ mo ∧ mo ≤ 12 ∧ 1 ≤ d ∧ d ≤ daysInMonth (y : Int) mo ∧
      h ≤ 23 ∧ mi ≤ 59 ∧ s ≤ 59 then
    some (daysFromCivil (y : Int) mo d * 86400 +
          (h : Int) * 3600 + (mi : Int) * 60 + (s : Int) - off)
  else none

/-- The `parse_iso` helper of `tools.py`: a trailing `Z` is rewritten to
`+00:00`, then the string is handed to `fromisoformat`. -/
def parse_iso (ts : String) : Option Int :=
  let l := ts.toList
  match l.getLast? with
  | some 'Z' => fromisoformat (l.dropLast ++ "+00:00".toList)
  | _ => fromisoformat l

/-- The `utcnow` helper of `tools.py`, with the `NOW_ISO` environment variable
and the ambient real clock (modelled at whole-second resolution, which is all
the cancellation rule's claims exercise) made explicit.  A set, non-empty
override is parsed — a malformed one is a `ValueError`, never a fallback to
the real clock; an unset or empty override yields the real clock. -/
def utcnow (now_env : Option String) (realNow : Int) : Except String Int :=
  match now_env with
  | some s =>
    if s = "" then .ok realNow
    else match parse_iso s with
    | some t => .ok t
    | none => .error "ValueError"
  | none => .ok realNow

/-- Python's fixed-point formatting `f"{x:.1f}"` for the rationals this program
produces: round to tenths (ties toward +∞; CPython rounds the binary double
half-to-even, which agrees at every value whose tenths-scaling is not an exact
half) and print one digit after the point. -/
def fmt1 (q : ℚ) : String :=
  let n : Int := round (q * 10)
  if n < 0 then "-" ++ toString ((-n) / 10) ++ "." ++ toString ((-n) % 10)
  else toString (n / 10) ++ "." ++ toString (n % 10)

/-- A product record of `data/products.json` (reference data; the data file is
outside the source tree, so searches are parametrised by the product list). -/
structure Product where
  id : String
  title : String
  price : ℚ
  sizes : List String
  tags : List String
  color : String
deriving DecidableEq

/-- An order record of `data/orders.json`; `created_at` is kept as the ISO
string the file holds, parsed where the code parses it. -/
structure Order where
  order_id : String
  email : String
  created_at : String
deriving DecidableEq

/-- A policy decision `{cancel_allowed, reason}`. -/
structure Decision where
  cancel_allowed : Bool
  reason : String
deriving DecidableEq

/-- The stop-word list of `product_search`. -/
def stopwords : List String :=
  ["under", "less", "budget", "m", "l", "xl", "s", "eta", "to", "guest",
   "between", "im", "i", "zip"]

/-- The `matches` predicate inside `product_search`: price ceiling first; a
non-empty tag set decides by lowered-tag subset inclusion alone; otherwise the
meaningful free-text tokens decide by substring containment in the item's
title/tags/color haystack; no tokens at all matches everything. -/
def matchesItem (tokens : List String) (price_max : Option ℚ)
    (tags : Option (List String)) (item : Product) : Bool :=
  if (match price_max with
      | some pm => decide (pm < item.price)
      | none => false) then false
  else if (match tags with | some ts => !ts.isEmpty | none => false) then
    (tags.getD []).all (fun t => item.tags.any (fun u => lowerStr u == lowerStr t))
  else if !tokens.isEmpty then
    let hay := lowerStr (item.title ++ " " ++ String.intercalate " " item.tags
      ++ " " ++ item.color)
    let meaningful := tokens.filter (fun tok => !stopwords.contains tok)
    if !meaningful.isEmpty then meaningful.any (fun tok => containsSub hay tok)
    else true
  else true

/-- The sort key of `product_search`: Python's tuple order on
`(price, id)`. -/
def prodKeyLe (a b : Product) : Prop :=
  a.price < b.price ∨ (a.price = b.price ∧ a.id ≤ b.id)

instance : DecidableRel prodKeyLe := fun a b => by
  unfold prodKeyLe; infer_instance

instance : IsTotal Product prodKeyLe :=
  ⟨fun a b => by
    unfold prodKeyLe
    rcases lt_trichotomy a.price b.price with h | h | h
    · exact Or.inl (Or.inl h)
    · rcases le_total a.id b.id with h' | h'
      · exact Or.inl (Or.inr ⟨h, h'⟩)
      · exact Or.inr (Or.inr ⟨h.symm, h'⟩)
    · exact Or.inr (Or.inl h)⟩

instance : IsTrans Product prodKeyLe :=
  ⟨fun a b c hab hbc => by
    unfold prodKeyLe at *
    rcases hab with h1 | ⟨h1, h1'⟩
    · rcases hbc with h2 | ⟨h2, _⟩
      · exact Or.inl (h1.trans h2)
      · exact Or.inl (h2 ▸ h1)
    · rcases hbc with h2 | ⟨h2, h2'⟩
      · exact Or.inl (h1 ▸ h2)
      · exact Or.inr ⟨h1.trans h2, h1'.trans h2'⟩⟩

/-- The `product_search` tool: filter by `matches`, then sort by
`(price, id)`.  Python's `list.sort` is a stable sort on that key, and a
stable sort of a fixed list under a total preorder has a unique result, so
insertion sort models it exactly. -/
def product_search (items : List Product) (query : String)
    (price_max : Option ℚ) (tags : Option (List String)) : List Product :=
  let q := lowerStr query
  let tokens := findallAlnum q
  (items.filter (matchesItem tokens price_max tags)).insertionSort prodKeyLe

/-- A size recommendation `{recommended, rationale}`. -/
structure SizeRec where
  recommended : String
  rationale : String
deriving DecidableEq

/-- The `size_recommender` tool: `L` on a "loose"/"oversized" mention,
otherwise `M`. -/
def size_recommender (user_inputs : String) : SizeRec :=
  let text := lowerStr user_inputs
  if containsSub text "loose" || containsSub text "oversized" then
    ⟨"L", "You prefer a looser fit; L should feel roomier. Choose M for a snugger fit."⟩
  else
    ⟨"M", "You mentioned you\x27re between M and L; we suggest M for a closer fit or L if you prefer a roomier feel."⟩

/-- A delivery estimate `{zip, eta_window}`. -/
structure EtaInfo where
  zip : String
  eta_window : String
deriving DecidableEq

/-- Python `str.startswith`. -/
def strStartsWith (s pre : String) : Bool :=
  pre.toList.isPrefixOf s.toList

/-- The `eta` tool: postal-prefix lookup with a catch-all window. -/
def eta (zip_code : String) : EtaInfo :=
  if strStartsWith zip_code "56" then ⟨zip_code, "3–5 business days"⟩
  else if strStartsWith zip_code "10" || strStartsWith zip_code "11"
      || strStartsWith zip_code "12" then ⟨zip_code, "2–3 business days"⟩
  else ⟨zip_code, "2–5 business days"⟩

/-- The `order_lookup` tool: first order matching both keys
case-insensitively. -/
def order_lookup (orders : List Order) (order_id : String) (email : String) :
    Option Order :=
  orders.find? (fun o =>
    lowerStr o.order_id == lowerStr order_id && lowerStr o.email == lowerStr email)

/-- The `order_cancel` tool.  The order is found case-insensitively by id; its
`created_at` and the evaluation instant are parsed (each parse models the
`ValueError` Python would raise); the elapsed minutes decide eligibility with
a `1e-9` tolerance, and the reason string embeds the elapsed minutes formatted
to one decimal place. -/
def order_cancel (orders : List Order) (order_id : String)
    (timestamp_iso : Option String) (now_env : Option String) (realNow : Int) :
    Except String Decision :=
  match orders.find? (fun o => lowerStr o.order_id == lowerStr order_id) with
  | none => .ok ⟨false, "order_not_found"⟩
  | some order => do
    let created ← match parse_iso order.created_at with
      | some t => Except.ok t
      | none => Except.error "ValueError"
    let now ← match timestamp_iso with
      | some t =>
        if t = "" then utcnow now_env realNow
        else match parse_iso t with
          | some v => Except.ok v
          | none => Except.error "ValueError"
      | none => utcnow now_env realNow
    let delta : ℚ := ((now - created : Int) : ℚ) / 60
    if delta ≤ 60 + 1 / 1000000000 then
      .ok ⟨true, "within_60_min (" ++ fmt1 delta ++ " min)"⟩
    else
      .ok ⟨false, ">60 min (" ++ fmt1 delta ++ " min)"⟩

/-- The closed intent set of the Router. -/
inductive Intent where
  | product_assist
  | order_help
  | other
deriving DecidableEq

/-- One entry of the evidence log: either a shown product
(`{id, title, price, sizes}`) or the order-lookup record
(`{order_id, email, found}`). -/
inductive Evidence where
  | product (id title : String) (price : ℚ) (sizes : List String)
  | orderCheck (order_id email : Option String) (found : Bool)
deriving DecidableEq

/-- The shared request state (`AgentState`, a `TypedDict` with all keys
optional).  An outer `none` models an absent key; for the keys the code can
set to Python `None` (`policy_decision`, `order`, `order_id`, `email`) an
inner `Option` models that null. -/
structure AgentState where
  prompt : String
  intent : Option Intent := none
  tools_called : Option (List String) := none
  evidence : Option (List Evidence) := none
  policy_decision : Option (Option Decision) := none
  final_message : Option String := none
  order : Option (Option Order) := none
  order_id : Option (Option String) := none
  email : Option (Option String) := none
  products : Option (List Product) := none
  size : Option SizeRec := none
  eta : Option EtaInfo := none
deriving DecidableEq

/-- The deterministic Router's keyword list for `order_help`. -/
def order_keywords : List String :=
  ["cancel order", "order status", "order help", "where is my order",
   "order ", "refund"]

/-- The deterministic Router's keyword list for `product_assist`. -/
def product_keywords : List String :=
  ["dress", "product", "wedding", "midi", "size", "eta", "zip"]

/-- The deterministic Router's classification: order keywords first, then
product keywords, else `other`. -/
def routeIntent (prompt : String) : Intent :=
  let low := lowerStr prompt
  if order_keywords.any (fun k => containsSub low k) then .order_help
  else if product_keywords.any (fun k => containsSub low k) then .product_assist
  else .other

/-- The `router_node` (deterministic branch): classify, and reset the
tool-call and evidence accumulators. -/
def router_node (state : AgentState) : AgentState :=
  { state with
    intent := some (routeIntent state.prompt),
    tools_called := some [],
    evidence := some [] }

/-- Python's `tags or None` applied to the extracted tag list. -/
def tags_opt (prompt : String) : Option (List String) :=
  match extract_tags prompt with
  | [] => none
  | ts => some ts

/-- The first two product-search results shown for a `product_assist`
prompt (`products[:2]`). -/
def picks (productsDb : List Product) (prompt : String) : List Product :=
  (product_search productsDb prompt (extract_price_cap prompt) (tags_opt prompt)).take 2

/-- The order the Tool Selector resolves for an `order_help` prompt: a lookup
only when both the order id and the email were extracted, otherwise treated
as not found. -/
def selected_order (ordersDb : List Order) (prompt : String) : Option Order :=
  match extract_order_id prompt, extract_email prompt with
  | some o, some e => order_lookup ordersDb o e
  | _, _ => none

/-- The `tool_selector_node`: dispatch on intent; `product_assist` extracts
the price ceiling, tags and postal code and runs the three product tools;
`order_help` extracts the order id and email, looks the order up only when
both are present, and records the lookup either way; `other` does nothing.
The state keys a node does not guarantee (`tools_called`, `evidence`) are
read with an empty default, which the Router's reset makes exact in the
pipeline. -/
def tool_selector_node (productsDb : List Product) (ordersDb : List Order)
    (state : AgentState) : AgentState :=
  let prompt := state.prompt
  match state.intent.getD .other with
  | .product_assist =>
    { state with
      tools_called := some ((state.tools_called.getD []) ++
        ["product_search", "size_recommender", "eta"]),
      products := some (picks productsDb prompt),
      size := some (size_recommender prompt),
      eta := some (eta ((extract_zip prompt).getD "00000")),
      evidence := some ((state.evidence.getD []) ++
        (picks productsDb prompt).map
          (fun p => Evidence.product p.id p.title p.price p.sizes)) }
  | .order_help =>
    { state with
      tools_called := some ((state.tools_called.getD []) ++ ["order_lookup"]),
      order_id := some (extract_order_id prompt),
      email := some (extract_email prompt),
      order := some (selected_order ordersDb prompt),
      evidence := some ((state.evidence.getD []) ++
        [Evidence.orderCheck (extract_order_id prompt) (extract_email prompt)
          (selected_order ordersDb prompt).isSome]) }
  | .other => state

/-- The `policy_guard_node`: null decision unless the intent is `order_help`;
a missing order denies without consulting any tool; a found order is checked
by `order_cancel` (which may surface a timestamp `ValueError`). -/
def policy_guard_node (ordersDb : List Order) (now_env : Option String)
    (realNow : Int) (state : AgentState) : Except String AgentState :=
  if state.intent.getD .other ≠ .order_help then
    .ok { state with policy_decision := some none }
  else
    match state.order.getD none with
    | none =>
      .ok { state with
            policy_decision := some (some ⟨false, "order_not_found_or_missing_credentials"⟩) }
    | some order => do
      let decision ← order_cancel ordersDb order.order_id none now_env realNow
      .ok { state with policy_decision := some (some decision) }

/-- Python's rendering of a product price inside an f-string, for the
integer-valued prices of the reference data. -/
def priceStr (q : ℚ) : String :=
  if q.den = 1 then toString q.num else toString q

/-- The fixed discount-code refusal of the `other` branch of the Responder. -/
def discount_refusal : String :=
  "I can’t generate custom discount codes. You can still save by:\n• Joining our newsletter for first-order perks\n• Watching seasonal sales on the site\n• Building a wishlist so we alert you if prices drop"

/-- The `responder_node` (deterministic branch): the fixed template table per
intent and sub-condition. -/
def responder_node (state : AgentState) : AgentState :=
  let msg :=
    match state.intent.getD .other with
    | .product_assist =>
      let picks := state.products.getD []
      if picks.isEmpty then
        "I couldn\x27t find items that match your filters. If you can relax the budget or tags, I can search again."
      else
        let lines := picks.map (fun it =>
          "• " ++ it.title ++ " — $" ++ priceStr it.price ++ " | sizes: " ++
          String.intercalate ", " it.sizes)
        let recStr := ((state.size.map (fun s => s.recommended)).getD "M")
        let rationale := ((state.size.map (fun s => s.rationale)).getD "")
        let etaText := ((state.eta.map (fun e => e.eta_window)).getD "2–5 business days")
        let zipText := match state.eta with | some e => e.zip | none => "None"
        "Here are two options under your budget:\n" ++
        String.intercalate "\n" lines ++
        "\n\nSize tip: go **" ++ recStr ++ "**. " ++ rationale ++
        "\nETA to " ++ zipText ++ ": " ++ etaText ++ "."
    | .order_help =>
      match state.order.getD none with
      | none =>
        "I couldn’t verify that order. Please double-check the order ID and email, or I can hand you to support."
      | some order =>
        match state.policy_decision.getD none with
        | some d =>
          if d.cancel_allowed then
            "✅ Order " ++ order.order_id ++ " is cancelled successfully. You’ll see a confirmation email shortly."
          else
            "❌ I can’t cancel order " ++ order.order_id ++
            " because our policy allows cancellations only within 60 minutes of purchase (" ++
            d.reason ++ ").\n" ++
            "Next best options:\n• Edit the delivery address (if the carrier hasn’t picked it up)\n• Convert to store credit after delivery\n• Or I can hand you off to a human agent"
        | none => ""
    | .other => discount_refusal
  { state with final_message := some msg }

/-- The `trace_node`: a pass-through. -/
def trace_node (state : AgentState) : AgentState := state

/-- One pass of the five-stage pipeline
`router → tool_selector → policy_guard → responder → trace` over a fresh
state seeded with the prompt, in deterministic mode, parametrised by the two
reference-data files, the `NOW_ISO` override and the ambient real clock. -/
def pipelineState (productsDb : List Product) (ordersDb : List Order)
    (now_env : Option String) (realNow : Int) (prompt : String) :
    Except String AgentState := do
  let s1 := router_node { prompt := prompt }
  let s2 := tool_selector_node productsDb ordersDb s1
  let s3 ← policy_guard_node ordersDb now_env realNow s2
  pure (trace_node (responder_node s3))

/-- The trace record `run_agent` assembles from the terminal state. -/
structure TraceRec where
  intent : Option Intent
  tools_called : List String
  evidence : List Evidence
  policy_decision : Option Decision
  final_message : String
deriving DecidableEq

/-- The value of the entry point: `{trace, reply}`. -/
structure RunResult where
  trace : TraceRec
  reply : String
deriving DecidableEq

/-- The `run_agent` entry point: run the pipeline once on a fresh state and
read the trace fields (each with the dictionary-get default of the source). -/
def run_agent (productsDb : List Product) (ordersDb : List Order)
    (now_env : Option String) (realNow : Int) (prompt : String) :
    Except String RunResult :=
  (pipelineState productsDb ordersDb now_env realNow prompt).map (fun s =>
    { trace :=
        { intent := s.intent,
          tools_called := s.tools_called.getD [],
          evidence := s.evidence.getD [],
          policy_decision := s.policy_decision.getD none,
          final_message := s.final_message.getD "" },
      reply := s.final_message.getD "" })

/-! Shape lemmas: the terminal state of one pipeline pass, by routed intent. -/

theorem except_bind_ok {α β ε : Type} (a : α) (f : α → Except ε β) :
    (Except.ok a >>= f) = f a := rfl

theorem except_bind_error {α β ε : Type} (e : ε) (f : α → Except ε β) :
    ((Except.error e : Except ε α) >>= f) = Except.error e := rfl

theorem responder_node_only_message (s : AgentState) :
    responder_node s = { s with final_message := (responder_node s).final_message } := rfl

theorem responder_node_intent (s : AgentState) :
    (responder_node s).intent = s.intent := rfl

theorem responder_node_tools_called (s : AgentState) :
    (responder_node s).tools_called = s.tools_called := rfl

theorem responder_node_evidence (s : AgentState) :
    (responder_node s).evidence = s.evidence := rfl

theorem responder_node_policy_decision (s : AgentState) :
    (responder_node s).policy_decision = s.policy_decision := rfl

theorem responder_node_order (s : AgentState) :
    (responder_node s).order = s.order := rfl

theorem responder_node_order_id (s : AgentState) :
    (responder_node s).order_id = s.order_id := rfl

theorem responder_node_email (s : AgentState) :
    (responder_node s).email = s.email := rfl

theorem responder_node_products (s : AgentState) :
    (responder_node s).products = s.products := rfl

theorem responder_node_size (s : AgentState) :
    (responder_node s).size = s.size := rfl

theorem responder_node_eta (s : AgentState) :
    (responder_node s).eta = s.eta := rfl

/-- Terminal state of a prompt routed to `other`. -/
theorem pipelineState_other_eq (pdb : List Product) (odb : List Order)
    (env : Option String) (rn : Int) (p : String)
    (h : routeIntent p = .other) :
    pipelineState pdb odb env rn p =
      .ok (responder_node
        { prompt := p, intent := some .other, tools_called := some [],
          evidence := some [], policy_decision := some none }) := by
  simp [pipelineState, router_node, tool_selector_node, policy_guard_node,
    trace_node, h, except_bind_ok]

/-- Terminal state of a prompt routed to `product_assist`. -/
theorem pipelineState_product_eq (pdb : List Product) (odb : List Order)
    (env : Option String) (rn : Int) (p : String)
    (h : routeIntent p = .product_assist) :
    pipelineState pdb odb env rn p =
      .ok (responder_node
        { prompt := p, intent := some .product_assist,
          tools_called := some ["product_search", "size_recommender", "eta"],
          evidence := some ((picks pdb p).map
            (fun pr => Evidence.product pr.id pr.title pr.price pr.sizes)),
          policy_decision := some none,
          products := some (picks pdb p),
          size := some (size_recommender p),
          eta := some (eta ((extract_zip p).getD "00000")) }) := by
  simp [pipelineState, router_node, tool_selector_node, policy_guard_node,
    trace_node, h, except_bind_ok]

/-- Terminal state of a prompt routed to `order_help` whose order could not be
resolved. -/
theorem pipelineState_order_none_eq (pdb : List Product) (odb : List Order)
    (env : Option String) (rn : Int) (p : String)
    (h : routeIntent p = .order_help) (ho : selected_order odb p = none) :
    pipelineState pdb odb env rn p =
      .ok (responder_node
        { prompt := p, intent := some .order_help,
          tools_called := some ["order_lookup"],
          evidence := some [Evidence.orderCheck (extract_order_id p)
            (extract_email p) false],
          policy_decision := some (some ⟨false, "order_not_found_or_missing_credentials"⟩),
          order := some none,
          order_id := some (extract_order_id p),
          email := some (extract_email p) }) := by
  simp [pipelineState, router_node, tool_selector_node, policy_guard_node,
    trace_node, h, ho, except_bind_ok]

/-- Terminal state of a prompt routed to `order_help` whose order was found:
the cancellation check decides, and its timestamp error, if any, aborts the
pass. -/
theorem pipelineState_order_found_eq (pdb : List Product) (odb : List Order)
    (env : Option String) (rn : Int) (p : String) (o : Order)
    (h : routeIntent p = .order_help) (ho : selected_order odb p = some o) :
    pipelineState pdb odb env rn p =
      (order_cancel odb o.order_id none env rn).map (fun d =>
        responder_node
          { prompt := p, intent := some .order_help,
            tools_called := some ["order_lookup"],
            evidence := some [Evidence.orderCheck (extract_order_id p)
              (extract_email p) true],
            policy_decision := some (some d),
            order := some (some o),
            order_id := some (extract_order_id p),
            email := some (extract_email p) }) := by
  cases hc : order_cancel odb o.order_id none env rn with
  | ok d =>
    simp [pipelineState, router_node, tool_selector_node, policy_guard_node,
      trace_node, h, ho, hc, except_bind_ok, Except.map]
  | error e =>
    simp [pipelineState, router_node, tool_selector_node, policy_guard_node,
      trace_node, h, ho, hc, except_bind_ok, except_bind_error, Except.map]

/-! The claims. -/

/-- C2: In deterministic mode, every prompt whose lower-cased text contains
one of the order keywords ("cancel order", "order status", "order help",
"where is my order", "order ", "refund") is classified `order_help`, even if
product keywords are also present: the order-keyword check runs first and its
success alone decides. -/
theorem C2_order_keyword_precedence (p : String)
    (h : ∃ k ∈ order_keywords, containsSub (lowerStr p) k = true) :
    routeIntent p = .order_help := by
  obtain ⟨k, hk, hc⟩ := h
  have ha : order_keywords.any (fun k => containsSub (lowerStr p) k) = true :=
    List.any_eq_true.2 ⟨k, hk, hc⟩
  simp [routeIntent, ha]

/-- Witness for C2: a prompt holding both the order keyword "cancel order"
and the product keywords "wedding" and "dress" is still routed to
`order_help`. -/
theorem C2_order_keyword_precedence_witness :
    (∃ k ∈ order_keywords,
      containsSub (lowerStr "Please cancel order A1003 for my wedding dress") k = true) ∧
    routeIntent "Please cancel order A1003 for my wedding dress" = .order_help :=
  ⟨⟨"cancel order", by decide, by decide⟩,
   C2_order_keyword_precedence "Please cancel order A1003 for my wedding dress"
     ⟨"cancel order", by decide, by decide⟩⟩

/-- C4: For every query, price ceiling and tag set, the product-search result
is sorted ascending by price with the id as tie-break, and re-running the
same search returns the identical list (the function is pure), which is what
the "top two" pagination relies on. -/
theorem C4_search_sorted_reproducible (items : List Product) (query : String)
    (price_max : Option ℚ) (tags : Option (List String)) :
    List.Pairwise prodKeyLe (product_search items query price_max tags) ∧
    product_search items query price_max tags =
      product_search items query price_max tags :=
  ⟨List.sorted_insertionSort prodKeyLe _, rfl⟩

/-- C5: In deterministic mode, two invocations of the entry point on the same
prompt, the same injected evaluation timestamp (and the same reference data
and ambient clock) produce identical trace records and identical replies. -/
theorem C5_idempotent (pdb : List Product) (odb : List Order)
    (env : Option String) (rn : Int) (p : String) (r1 r2 : RunResult)
    (h1 : run_agent pdb odb env rn p = .ok r1)
    (h2 : run_agent pdb odb env rn p = .ok r2) :
    r1.trace = r2.trace ∧ r1.reply = r2.reply := by
  obtain rfl := Except.ok.inj (h1.symm.trans h2)
  exact ⟨rfl, rfl⟩

/-- The result of the entry point on the prompt "hello" with a fixed injected
timestamp, used by the C5 witness. -/
def c5SampleResult : RunResult :=
  { trace := { intent := some .other, tools_called := [], evidence := [],
               policy_decision := none, final_message := discount_refusal },
    reply := discount_refusal }

/-- Witness for C5: both invocations on "hello" under the injected timestamp
return `c5SampleResult`, so trace and reply coincide. -/
theorem C5_idempotent_witness :
    c5SampleResult.trace = c5SampleResult.trace ∧
    c5SampleResult.reply = c5SampleResult.reply :=
  C5_idempotent [] [] (some "2025-09-07T12:40:00Z") 0 "hello"
    c5SampleResult c5SampleResult (by rfl) (by rfl)

/-- C10: In deterministic mode, a prompt containing no order keyword and no
product keyword — the empty string included — yields intent `other`, no tool
calls, no evidence, a null policy decision, and the fixed discount-code
refusal (which names legitimate saving alternatives) as both the trace's
final message and the reply. -/
theorem C10_no_keyword_refusal (pdb : List Product) (odb : List Order)
    (env : Option String) (rn : Int) (p : String)
    (h : ∀ k ∈ order_keywords ++ product_keywords,
      containsSub (lowerStr p) k = false) :
    run_agent pdb odb env rn p = .ok
      { trace := { intent := some .other, tools_called := [], evidence := [],
                   policy_decision := none, final_message := discount_refusal },
        reply := discount_refusal } := by
  have hI : routeIntent p = .other := by
    have ho : order_keywords.any (fun k => containsSub (lowerStr p) k) = false := by
      rw [List.any_eq_false]
      intro k hk
      simp [h k (List.mem_append_left _ hk)]
    have hp : product_keywords.any (fun k => containsSub (lowerStr p) k) = false := by
      rw [List.any_eq_false]
      intro k hk
      simp [h k (List.mem_append_right _ hk)]
    simp [routeIntent, ho, hp]
  rw [run_agent, pipelineState_other_eq pdb odb env rn p hI]
  rfl

/-- Witness for C10: the empty prompt contains no keyword and produces the
refusal trace. -/
theorem C10_no_keyword_refusal_witness :
    (∀ k ∈ order_keywords ++ product_keywords,
      containsSub (lowerStr "") k = false) ∧
    run_agent [] [] none 0 "" = .ok
      { trace := { intent := some .other, tools_called := [], evidence := [],
                   policy_decision := none, final_message := discount_refusal },
        reply := discount_refusal } :=
  ⟨by decide, C10_no_keyword_refusal [] [] none 0 "" (by decide)⟩

/-- The input of the spec's Scenario 1. -/
def scenario1_prompt : String :=
  "Wedding guest, midi, under $120 — I\x27m between M/L. ETA to 560001?"

/-- C8: In deterministic mode, Scenario 1's input routes to `product_assist`
with an extracted price ceiling of 120 and the tag set ["wedding", "midi"],
and the terminal state (for any reference data, override and clock) carries
the delivery estimate "3–5 business days" for the extracted postal code
"560001" and the size recommendation "M" (the text mentions neither "loose"
nor "oversized"). -/
theorem C8_scenario1 (pdb : List Product) (odb : List Order)
    (env : Option String) (rn : Int) :
    routeIntent scenario1_prompt = .product_assist ∧
    extract_price_cap scenario1_prompt = some 120 ∧
    extract_tags scenario1_prompt = ["wedding", "midi"] ∧
    ∃ s, pipelineState pdb odb env rn scenario1_prompt = .ok s ∧
      s.intent = some .product_assist ∧
      s.eta = some ⟨"560001", "3–5 business days"⟩ ∧
      s.size.map (fun r => r.recommended) = some "M" := by
  have hI : routeIntent scenario1_prompt = .product_assist := by rfl
  refine ⟨hI, by rfl, by rfl,
    ⟨_, pipelineState_product_eq pdb odb env rn scenario1_prompt hI, rfl, ?_, ?_⟩⟩
  · show some (eta ((extract_zip scenario1_prompt).getD "00000")) = _
    rfl
  · show (some (size_recommender scenario1_prompt)).map (fun r => r.recommended) = _
    rfl

/-- C9: In deterministic mode, every `product_assist` prompt holding no
5–6-digit word-bounded token uses the sentinel postal code "00000", so the
terminal state records the delivery estimate for zip "00000" with the
catch-all window "2–5 business days" (and the eta tool is recorded as
called). -/
theorem C9_sentinel_zip (pdb : List Product) (odb : List Order)
    (env : Option String) (rn : Int) (p : String)
    (hI : routeIntent p = .product_assist)
    (hz : extract_zip p = none) :
    ∃ s, pipelineState pdb odb env rn p = .ok s ∧
      s.tools_called = some ["product_search", "size_recommender", "eta"] ∧
      s.eta = some ⟨"00000", "2–5 business days"⟩ := by
  refine ⟨_, pipelineState_product_eq pdb odb env rn p hI, rfl, ?_⟩
  show some (eta ((extract_zip p).getD "00000")) = _
  rw [hz]
  rfl

/-- Witness for C9: "Looking for a midi dress" routes to `product_assist`,
holds no 5–6-digit token, and ends with the sentinel estimate. -/
theorem C9_sentinel_zip_witness :
    (routeIntent "Looking for a midi dress" = .product_assist ∧
     extract_zip "Looking for a midi dress" = none) ∧
    ∃ s, pipelineState [] [] none 0 "Looking for a midi dress" = .ok s ∧
      s.tools_called = some ["product_search", "size_recommender", "eta"] ∧
      s.eta = some ⟨"00000", "2–5 business days"⟩ :=
  ⟨⟨by rfl, by rfl⟩,
   C9_sentinel_zip [] [] none 0 "Looking for a midi dress" (by rfl) (by rfl)⟩

/-- C6: In deterministic mode, every `order_help` prompt from which the order
id or the email cannot be extracted skips the lookup and is treated as not
found: the pass completes normally, the Policy Guard denies with
`order_not_found_or_missing_credentials`, "order_lookup" is still recorded,
and exactly one evidence entry with the extracted id, email and a false found
flag is appended. -/
theorem C6_missing_credentials (pdb : List Product) (odb : List Order)
    (env : Option String) (rn : Int) (p : String)
    (hI : routeIntent p = .order_help)
    (hmiss : extract_order_id p = none ∨ extract_email p = none) :
    ∃ s, pipelineState pdb odb env rn p = .ok s ∧
      s.policy_decision = some (some ⟨false, "order_not_found_or_missing_credentials"⟩) ∧
      s.tools_called = some ["order_lookup"] ∧
      s.evidence = some [Evidence.orderCheck (extract_order_id p) (extract_email p) false] := by
  have ho : selected_order odb p = none := by
    rcases hmiss with h | h <;>
      cases ho1 : extract_order_id p <;>
      cases ho2 : extract_email p <;>
      simp_all [selected_order]
  exact ⟨_, pipelineState_order_none_eq pdb odb env rn p hI ho, rfl, rfl, rfl⟩

/-- Witness for C6: "order status please" routes to `order_help` and yields
no order id, so the denial decision, the recorded tool call and the single
evidence entry appear. -/
theorem C6_missing_credentials_witness :
    (routeIntent "order status please" = .order_help ∧
     extract_order_id "order status please" = none) ∧
    ∃ s, pipelineState [] [] none 0 "order status please" = .ok s ∧
      s.policy_decision = some (some ⟨false, "order_not_found_or_missing_credentials"⟩) ∧
      s.tools_called = some ["order_lookup"] ∧
      s.evidence = some [Evidence.orderCheck (extract_order_id "order status please")
        (extract_email "order status please") false] :=
  ⟨⟨by rfl, by rfl⟩,
   C6_missing_credentials [] [] none 0 "order status please" (by rfl) (Or.inl (by rfl))⟩

/-- C3: After the full deterministic pipeline, the working fields of an
intent that was not taken remain unset (order fields for `product_assist`;
product fields for `order_help` and `other`), and the recorded policy
decision is non-null exactly when the intent is `order_help`. -/
theorem C3_unused_fields_invariant (pdb : List Product) (odb : List Order)
    (env : Option String) (rn : Int) (p : String) (s : AgentState)
    (h : pipelineState pdb odb env rn p = .ok s) :
    (s.intent = some .product_assist →
      s.order = none ∧ s.order_id = none ∧ s.email = none) ∧
    ((s.intent = some .order_help ∨ s.intent = some .other) →
      s.products = none ∧ s.size = none ∧ s.eta = none) ∧
    ((s.policy_decision.getD none).isSome = true ↔ s.intent = some .order_help) := by
  cases hI : routeIntent p with
  | other =>
    rw [pipelineState_other_eq pdb odb env rn p hI] at h
    obtain rfl := Except.ok.inj h
    refine ⟨by simp [responder_node_intent], ?_, ?_⟩ <;>
      simp [responder_node_intent, responder_node_products, responder_node_size,
        responder_node_eta, responder_node_policy_decision]
  | product_assist =>
    rw [pipelineState_product_eq pdb odb env rn p hI] at h
    obtain rfl := Except.ok.inj h
    refine ⟨?_, ?_, ?_⟩ <;>
      simp [responder_node_intent, responder_node_order, responder_node_order_id,
        responder_node_email, responder_node_products, responder_node_size,
        responder_node_eta, responder_node_policy_decision]
  | order_help =>
    cases hsel : selected_order odb p with
    | none =>
      rw [pipelineState_order_none_eq pdb odb env rn p hI hsel] at h
      obtain rfl := Except.ok.inj h
      refine ⟨?_, ?_, ?_⟩ <;>
        simp [responder_node_intent, responder_node_order, responder_node_order_id,
          responder_node_email, responder_node_products, responder_node_size,
          responder_node_eta, responder_node_policy_decision]
    | some o =>
      rw [pipelineState_order_found_eq pdb odb env rn p o hI hsel] at h
      cases hc : order_cancel odb o.order_id none env rn with
      | error e => rw [hc] at h; simp [Except.map] at h
      | ok d =>
        rw [hc] at h
        simp only [Except.map] at h
        obtain rfl := Except.ok.inj h
        refine ⟨?_, ?_, ?_⟩ <;>
          simp [responder_node_intent, responder_node_order, responder_node_order_id,
            responder_node_email, responder_node_products, responder_node_size,
            responder_node_eta, responder_node_policy_decision]

/-- The terminal state on the prompt "hello", used by the C3 witness. -/
def c3SampleState : AgentState :=
  { prompt := "hello", intent := some .other, tools_called := some [],
    evidence := some [], policy_decision := some none,
    final_message := some discount_refusal }

/-- Witness for C3: the invariant instantiated at the terminal state of the
prompt "hello". -/
theorem C3_unused_fields_invariant_witness :
    (c3SampleState.intent = some .product_assist →
      c3SampleState.order = none ∧ c3SampleState.order_id = none ∧
      c3SampleState.email = none) ∧
    ((c3SampleState.intent = some .order_help ∨ c3SampleState.intent = some .other) →
      c3SampleState.products = none ∧ c3SampleState.size = none ∧
      c3SampleState.eta = none) ∧
    ((c3SampleState.policy_decision.getD none).isSome = true ↔
      c3SampleState.intent = some .order_help) :=
  C3_unused_fields_invariant [] [] none 0 "hello" c3SampleState (by rfl)

/-- A one-order database used by the C1 theorems: the order is created at
2025-09-06T12:00:00Z. -/
def c1SampleOrders : List Order :=
  [⟨"A1", "a@b.co", "2025-09-06T12:00:00Z"⟩]

/-- Counterexample for C1: evaluated 75 minutes after creation, the denial
reason is ">60 min (75.0 min)" — it contains ">60 min" but not the claim's
"> 60 min" (with a space). -/
theorem C1_reason_space_counterexample :
    order_cancel c1SampleOrders "A1" none (some "2025-09-06T13:15:00Z") 0 =
      .ok ⟨false, ">60 min (75.0 min)"⟩ ∧
    containsSub ">60 min (75.0 min)" "> 60 min" = false ∧
    containsSub ">60 min (75.0 min)" ">60 min" = true := by
  refine ⟨?_, by decide, by decide⟩
  have hfind : c1SampleOrders.find? (fun x => lowerStr x.order_id == lowerStr "A1") =
      some ⟨"A1", "a@b.co", "2025-09-06T12:00:00Z"⟩ := by decide
  have hc : parse_iso "2025-09-06T12:00:00Z" = some 1757160000 := by decide
  have hn : utcnow (some "2025-09-06T13:15:00Z") 0 = .ok 1757164500 := by rfl
  have hcond : ¬ (((1757164500 - 1757160000 : Int) : ℚ) / 60 ≤ 60 + 1 / 1000000000) := by
    push_cast
    norm_num
  have hround : round (((1757164500 - 1757160000 : Int) : ℚ) / 60 * 10) = 750 := by
    rw [round_eq, Int.floor_eq_iff]
    push_cast
    norm_num
  have hfmt : fmt1 (((1757164500 - 1757160000 : Int) : ℚ) / 60) = "75.0" := by
    simp only [fmt1, hround]
    decide
  simp only [order_cancel, hfind, hc, hn, except_bind_ok]
  rw [if_neg hcond, hfmt]
  rfl

/-- C1 (amended): for every order found by the cancellation check, the
decision allows exactly when the elapsed minutes between the parsed
`created_at` and the evaluation instant are at most 60 up to the 1e-9
tolerance (so exactly 60.0 allows and 60.000001 denies); the reason is
"within_60_min" with the elapsed minutes to one decimal place when allowed,
and ">60 min" — with no space after ">" — with the elapsed minutes when
denied. -/
theorem C1_cancel_decision (odb : List Order) (oid : String)
    (env : Option String) (rn : Int) (created now : Int) (o : Order) (d : Decision)
    (hfind : odb.find? (fun x => lowerStr x.order_id == lowerStr oid) = some o)
    (hc : parse_iso o.created_at = some created)
    (hn : utcnow env rn = .ok now)
    (hd : order_cancel odb oid none env rn = .ok d) :
    (d.cancel_allowed = true ↔
      ((now - created : Int) : ℚ) / 60 ≤ 60 + 1 / 1000000000) ∧
    (d.cancel_allowed = true →
      d.reason = "within_60_min (" ++ fmt1 (((now - created : Int) : ℚ) / 60) ++ " min)") ∧
    (d.cancel_allowed = false →
      d.reason = ">60 min (" ++ fmt1 (((now - created : Int) : ℚ) / 60) ++ " min)") := by
  simp only [order_cancel, hfind, hc, hn, except_bind_ok] at hd
  split at hd
  case isTrue h =>
    obtain rfl := Except.ok.inj hd
    exact ⟨by simpa using h, fun _ => rfl, by simp⟩
  case isFalse h =>
    obtain rfl := Except.ok.inj hd
    exact ⟨by simpa using h, by simp, fun _ => rfl⟩

/-- The allowing decision at an elapsed time of exactly 60.0 minutes, used by
the C1 witness. -/
def c1SampleDecision : Decision :=
  ⟨true, "within_60_min (60.0 min)"⟩

/-- Witness for C1: evaluated exactly 60.0 minutes after creation
(evaluation override 2025-09-06T13:00:00Z), the boundary allows and the
reason carries "within_60_min (60.0 min)". -/
theorem C1_cancel_decision_witness :
    (c1SampleDecision.cancel_allowed = true ↔
      ((1757163600 - 1757160000 : Int) : ℚ) / 60 ≤ 60 + 1 / 1000000000) ∧
    (c1SampleDecision.cancel_allowed = true →
      c1SampleDecision.reason =
        "within_60_min (" ++ fmt1 (((1757163600 - 1757160000 : Int) : ℚ) / 60) ++ " min)") ∧
    (c1SampleDecision.cancel_allowed = false →
      c1SampleDecision.reason =
        ">60 min (" ++ fmt1 (((1757163600 - 1757160000 : Int) : ℚ) / 60) ++ " min)") :=
  C1_cancel_decision c1SampleOrders "A1" (some "2025-09-06T13:00:00Z") 0
    1757160000 1757163600 ⟨"A1", "a@b.co", "2025-09-06T12:00:00Z"⟩
    c1SampleDecision (by decide) (by decide) (by rfl)
    (by
      have hfind : c1SampleOrders.find? (fun x => lowerStr x.order_id == lowerStr "A1") =
          some ⟨"A1", "a@b.co", "2025-09-06T12:00:00Z"⟩ := by decide
      have hc : parse_iso "2025-09-06T12:00:00Z" = some 1757160000 := by decide
      have hn : utcnow (some "2025-09-06T13:00:00Z") 0 = .ok 1757163600 := by rfl
      have hcond : ((1757163600 - 1757160000 : Int) : ℚ) / 60 ≤ 60 + 1 / 1000000000 := by
        push_cast
        norm_num
      have hround : round (((1757163600 - 1757160000 : Int) : ℚ) / 60 * 10) = 600 := by
        rw [round_eq, Int.floor_eq_iff]
        push_cast
        norm_num
      have hfmt : fmt1 (((1757163600 - 1757160000 : Int) : ℚ) / 60) = "60.0" := by
        simp only [fmt1, hround]
        decide
      simp only [order_cancel, hfind, hc, hn, except_bind_ok]
      rw [if_pos hcond, hfmt]
      rfl)

/-- Counterexample for C7: with the malformed override "garbage" set, the
override does not parse, yet the invocation on "hello" completes normally
with a full reply — no configuration error is surfaced before (or during)
the pipeline. -/
theorem C7_eager_failure_counterexample :
    parse_iso "garbage" = none ∧
    run_agent [] [] (some "garbage") 0 "hello" = .ok
      { trace := { intent := some .other, tools_called := [], evidence := [],
                   policy_decision := none, final_message := discount_refusal },
        reply := discount_refusal } :=
  ⟨rfl, rfl⟩

/-- C7 (amended): a non-empty malformed evaluation-timestamp override never
falls back to the real clock — reading the clock yields a `ValueError` — but
the error surfaces only when the Policy Guard actually consults the clock
(an `order_help` prompt whose order was found); every pass that does not
consult the clock completes normally, and the empty-string override is
treated as unset, falling back to the real clock. -/
theorem C7_lazy_timestamp_error (ts : String) (rn : Int) (pdb : List Product)
    (odb : List Order) (p : String)
    (hbad : parse_iso ts = none) (hne : ts ≠ "") :
    utcnow (some ts) rn = .error "ValueError" ∧
    utcnow (some "") rn = .ok rn ∧
    (∀ o, routeIntent p = .order_help → selected_order odb p = some o →
      pipelineState pdb odb (some ts) rn p = .error "ValueError") ∧
    ((routeIntent p = .order_help → selected_order odb p = none) →
      ∃ s, pipelineState pdb odb (some ts) rn p = .ok s) := by
  have hclock : utcnow (some ts) rn = .error "ValueError" := by
    simp [utcnow, hbad, hne]
  refine ⟨hclock, rfl, ?_, ?_⟩
  · intro o hI hsel
    have hmem : o ∈ odb := by
      unfold selected_order at hsel
      cases ho1 : extract_order_id p with
      | none => simp [ho1] at hsel
      | some a =>
        cases ho2 : extract_email p with
        | none => simp [ho1, ho2] at hsel
        | some b =>
          simp only [ho1, ho2] at hsel
          exact List.mem_of_find?_eq_some hsel
    have hfind : (odb.find? (fun x => lowerStr x.order_id == lowerStr o.order_id)).isSome := by
      rw [List.find?_isSome]
      exact ⟨o, hmem, by simp⟩
    rw [pipelineState_order_found_eq pdb odb (some ts) rn p o hI hsel]
    obtain ⟨o', ho'⟩ := Option.isSome_iff_exists.1 hfind
    cases hpc : parse_iso o'.created_at with
    | none => simp [order_cancel, ho', hpc, except_bind_ok, except_bind_error,
        Except.map]
    | some c => simp [order_cancel, ho', hpc, hclock, except_bind_ok,
        except_bind_error, Except.map]
  · intro himp
    cases hI : routeIntent p with
    | product_assist =>
      exact ⟨_, pipelineState_product_eq pdb odb (some ts) rn p hI⟩
    | other =>
      exact ⟨_, pipelineState_other_eq pdb odb (some ts) rn p hI⟩
    | order_help =>
      exact ⟨_, pipelineState_order_none_eq pdb odb (some ts) rn p hI (himp hI)⟩

/-- Witness for C7: the override "garbage" with prompt "hello" — the clock
read errors, but the pass (which never consults the clock) completes. -/
theorem C7_lazy_timestamp_error_witness :
    utcnow (some "garbage") 0 = .error "ValueError" ∧
    utcnow (some "") 0 = .ok 0 ∧
    (∀ o, routeIntent "hello" = .order_help →
      selected_order [] "hello" = some o →
      pipelineState [] [] (some "garbage") 0 "hello" = .error "ValueError") ∧
    ((routeIntent "hello" = .order_help → selected_order [] "hello" = none) →
      ∃ s, pipelineState [] [] (some "garbage") 0 "hello" = .ok s) :=
  C7_lazy_timestamp_error "garbage" 0 [] [] "hello" (by rfl) (by decide)

end Evo
